import Mathlib

/-
Verification of the transcript server (src/server.py).

The development shallowly embeds the request-handling pipeline of the Flask
application in src/server.py:

* a model of the parts of CPython's `urllib.parse` that the code calls
  (`urlparse`, `parse_qs`), translated from the CPython standard library
  implementation, restricted to ASCII string inputs (percent-escapes whose
  byte value is >= 0x80 decode to the raw code point instead of going through
  UTF-8 decoding; no claim depends on non-ASCII inputs);
* the video-id resolver `get_video_transcript` (server.py lines 73-89),
  whose extraction part (lines 75-83) is `resolve_video_id`;
* the `/api/transcript` handler `get_transcript` (lines 91-105);
* the middleware: `add_security_headers` (lines 35-41), the catch-all
  error handler `handle_error` (lines 44-50), and a model of
  flask_limiter's fixed-window rate limiting together with Flask's
  error-handler dispatch (a handler registered for `Exception` also
  receives `HTTPException` instances - such as the limiter's 429 and
  routing's 404 - when no more specific handler is registered, which is
  the case in this application).

Python exceptions are modelled as a class name plus message; the external
transcript fetcher is an opaque function parameter.  The JSON values the
handler manipulates are modelled by the inductive `Json` (numbers as
integers; no claim involves non-integral numbers).
-/

/-! ### Basic list/string helpers (Python `in`, `split`, `find`) -/

/-- Tests whether the first list is a prefix of the second (Boolean). -/
def leadsWith : List Char → List Char → Bool
  | [], _ => true
  | _ :: _, [] => false
  | a :: as, b :: bs => a == b && leadsWith as bs

/-- Tests whether `needle` occurs as a contiguous sublist of the second list.
Models Python's substring test `needle in hay`. -/
def hasSub (needle : List Char) : List Char → Bool
  | [] => needle.isEmpty
  | c :: rest => leadsWith needle (c :: rest) || hasSub needle rest

/-- Python's `needle in hay` on strings (substring containment). -/
def strContains (hay needle : String) : Bool :=
  hasSub needle.data hay.data

/-- Python's `s.split(sep)` for a one-character separator: keeps empty
segments, and splitting the empty string yields `[""]`. -/
def splitOnChar (sep : Char) : List Char → List (List Char)
  | [] => [[]]
  | c :: rest =>
    match splitOnChar sep rest with
    | [] => [[]]
    | seg :: segs => if c == sep then [] :: seg :: segs else (c :: seg) :: segs

/-- Python's `s.split(sep, 1)` for a one-character separator: `none` when the
separator does not occur. -/
def splitOnceList (l : List Char) (sep : Char) : Option (List Char × List Char) :=
  match l.findIdx? (· == sep) with
  | some i => some (l.take i, l.drop (i + 1))
  | none => none

/-- Splits at the first occurrence of `c`, returning the remainder as `[]`
when `c` does not occur (used for the `#` and `?` splits in `urlsplit`). -/
def splitOnceWithDefault (l : List Char) (c : Char) : List Char × List Char :=
  match l.findIdx? (· == c) with
  | some i => (l.take i, l.drop (i + 1))
  | none => (l, [])

/-- Index of the last occurrence of `c`, if any (Python's `str.rfind`). -/
def rlastIdx (l : List Char) (c : Char) : Option Nat :=
  match l.reverse.findIdx? (· == c) with
  | some k => some (l.length - 1 - k)
  | none => none

/-! ### Model of CPython `urllib.parse` -/

/-- A Python exception: class name and message (`str(e)`). -/
structure PyErr where
  cls : String
  msg : String
deriving DecidableEq

/-- Result of `urllib.parse.urlparse`: the six named components. -/
structure ParseResult where
  scheme : String
  netloc : String
  path : String
  params : String
  query : String
  fragment : String
deriving DecidableEq

/-- WHATWG C0-control-or-space class stripped from the ends of the URL by
CPython `urlsplit`. -/
def isC0OrSpace (c : Char) : Bool := c.toNat ≤ 32

/-- CPython `urlsplit` preprocessing: strip leading/trailing C0 controls and
spaces. -/
def stripControlAndSpace (l : List Char) : List Char :=
  ((l.dropWhile isC0OrSpace).reverse.dropWhile isC0OrSpace).reverse

/-- CPython `urlsplit` preprocessing: remove all ASCII tab, CR and LF. -/
def removeTabsNewlines (l : List Char) : List Char :=
  l.filter (fun c => c != '\t' && c != '\r' && c != '\n')

/-- Characters allowed in a URI scheme after the first (CPython
`scheme_chars`: letters, digits, and `+-.`; `Char.isAlpha`/`Char.isDigit`
are ASCII-only, matching CPython's `isascii()` guard). -/
def isSchemeChar (c : Char) : Bool :=
  c.isAlpha || c.isDigit || c == '+' || c == '-' || c == '.'

/-- The scheme-splitting step of CPython `urlsplit`: if the text before the
first `:` is a non-empty run of scheme characters starting with a letter, it
is the (lowercased) scheme. Returns `(scheme, rest)`. -/
def splitScheme (l : List Char) : List Char × List Char :=
  match l.findIdx? (· == ':') with
  | none => ([], l)
  | some i =>
    if 0 < i then
      match l with
      | [] => ([], l)
      | c0 :: _ =>
        if c0.isAlpha && (l.take i).all isSchemeChar then
          ((l.take i).map Char.toLower, l.drop (i + 1))
        else ([], l)
    else ([], l)

/-- CPython `_splitparams`: split `;params` from the last path segment. The
caller only invokes this when `;` occurs in the path. -/
def splitparams (l : List Char) : List Char × List Char :=
  let start := if l.contains '/' then (rlastIdx l '/').getD 0 else 0
  match (l.drop start).findIdx? (· == ';') with
  | some k => (l.take (start + k), l.drop (start + k + 1))
  | none => (l, [])

/-- Assembles a `ParseResult` from scheme, netloc and the rest of the URL:
the fragment is split at the first `#`, then the query at the first `?`,
then `;params` is split out of the path (CPython `urlsplit` + `urlparse`). -/
def finishParse (schemeL netloc rest : List Char) : ParseResult :=
  let fragSplit := splitOnceWithDefault rest '#'
  let querySplit := splitOnceWithDefault fragSplit.1 '?'
  let pathParams :=
    if querySplit.1.contains ';' then splitparams querySplit.1
    else (querySplit.1, [])
  ⟨schemeL.asString, netloc.asString, pathParams.1.asString,
    pathParams.2.asString, querySplit.2.asString, fragSplit.2.asString⟩

/-- Model of CPython `urllib.parse.urlparse`. Mismatched IPv6 brackets in
the netloc raise `ValueError("Invalid IPv6 URL")`; this is the only failure
mode modelled (the additional bracketed-host validation of CPython >= 3.11
and the non-ASCII netloc check are omitted: no claim depends on them). -/
def urlparse (url : String) : Except PyErr ParseResult :=
  let u0 := removeTabsNewlines (stripControlAndSpace url.data)
  let schemeSplit := splitScheme u0
  let u1 := schemeSplit.2
  if leadsWith ['/', '/'] u1 then
    let after := u1.drop 2
    let netloc := after.takeWhile (fun c => c != '/' && c != '?' && c != '#')
    let rest := after.dropWhile (fun c => c != '/' && c != '?' && c != '#')
    if (netloc.contains '[' && !netloc.contains ']') ||
        (netloc.contains ']' && !netloc.contains '[') then
      Except.error ⟨"ValueError", "Invalid IPv6 URL"⟩
    else
      Except.ok (finishParse schemeSplit.1 netloc rest)
  else
    Except.ok (finishParse schemeSplit.1 [] u1)

/-- Hex digit value, both cases (CPython `_hextobyte`). -/
def hexVal (c : Char) : Option Nat :=
  if c.isDigit then some (c.toNat - 48)
  else if 97 ≤ c.toNat ∧ c.toNat ≤ 102 then some (c.toNat - 87)
  else if 65 ≤ c.toNat ∧ c.toNat ≤ 70 then some (c.toNat - 55)
  else none

/-- Percent-decoding (CPython `unquote` restricted to ASCII results): a `%`
followed by two hex digits becomes the corresponding code point, otherwise
the `%` is kept literally. -/
def unquoteChars : List Char → List Char
  | [] => []
  | '%' :: a :: b :: rest =>
    match hexVal a, hexVal b with
    | some x, some y => Char.ofNat (16 * x + y) :: unquoteChars rest
    | some _, none => '%' :: unquoteChars (a :: b :: rest)
    | none, _ => '%' :: unquoteChars (a :: b :: rest)
  | '%' :: rest => '%' :: unquoteChars rest
  | c :: rest => c :: unquoteChars rest

/-- The `+`-to-space replacement applied by `parse_qsl` before unquoting. -/
def plusToSpace (l : List Char) : List Char :=
  l.map (fun c => if c == '+' then ' ' else c)

/-- The value/name decoding of `parse_qsl`: replace `+` by space, then
percent-decode. -/
def unquote_plus (l : List Char) : String :=
  (unquoteChars (plusToSpace l)).asString

/-- CPython `urllib.parse.parse_qsl` with its default arguments
(`keep_blank_values=False`, separator `&`): split on `&`, skip empty
chunks, skip chunks without `=`, skip pairs whose raw value is empty,
decode names and values. -/
def parse_qsl (qs : String) : List (String × String) :=
  if qs = "" then []
  else
    (splitOnChar '&' qs.data).filterMap (fun nv =>
      if nv.isEmpty then none
      else
        match splitOnceList nv '=' with
        | none => none
        | some (n, v) =>
          if v.isEmpty then none
          else some (unquote_plus n, unquote_plus v))

/-- One step of CPython `parse_qs`'s dictionary construction: append the
value to an existing entry for the key, or add a new entry at the end. -/
def qsAdd : List (String × List String) → String → String → List (String × List String)
  | [], n, v => [(n, [v])]
  | (k, vs) :: rest, n, v =>
    if k = n then (k, vs ++ [v]) :: rest
    else (k, vs) :: qsAdd rest n v

/-- CPython `urllib.parse.parse_qs`: group the `parse_qsl` pairs into an
insertion-ordered dictionary from names to lists of values. -/
def parse_qs (qs : String) : List (String × List String) :=
  (parse_qsl qs).foldl (fun d p => qsAdd d p.1 p.2) []

/-- Python `dict.get` on the `parse_qs` dictionary. -/
def qsGet : List (String × List String) → String → Option (List String)
  | [], _ => none
  | (k, vs) :: rest, n => if k = n then some vs else qsGet rest n

/-! ### JSON values and Python operations on them -/

/-- JSON values as returned by Flask's `request.get_json` (numbers are
modelled as integers; no claim involves non-integral numbers). -/
inductive Json where
  | null : Json
  | bool (b : Bool) : Json
  | num (n : Int) : Json
  | str (s : String) : Json
  | arr (elems : List Json) : Json
  | obj (fields : List (String × Json)) : Json

/-- Python dict lookup on a JSON object's field list. -/
def objGet : List (String × Json) → String → Option Json
  | [], _ => none
  | (k, v) :: rest, n => if k = n then some v else objGet rest n

/-- Python truthiness of a JSON value (`not data` in the handler):
`None`, `False`, `0`, `""`, `[]` and `{}` are falsy. -/
def jsonTruthy : Json → Bool
  | Json.null => false
  | Json.bool b => b
  | Json.num n => n != 0
  | Json.str s => s != ""
  | Json.arr xs => !xs.isEmpty
  | Json.obj kvs => !kvs.isEmpty

/-- Python type name, as used in TypeError messages. -/
def pyTypeName : Json → String
  | Json.null => "NoneType"
  | Json.bool _ => "bool"
  | Json.num _ => "int"
  | Json.str _ => "str"
  | Json.arr _ => "list"
  | Json.obj _ => "dict"

/-- Python's `'url' in data` (handler line 96): key membership for dicts,
element equality for lists, substring test for strings; raises TypeError
for non-container values. (CPython quotes the type name in the message
with ASCII apostrophes, elided here.) -/
def json_contains_url : Json → Except PyErr Bool
  | Json.obj kvs => Except.ok (objGet kvs "url").isSome
  | Json.arr xs =>
    Except.ok (xs.any (fun x => match x with | Json.str s => s == "url" | _ => false))
  | Json.str s => Except.ok (strContains s "url")
  | d => Except.error ⟨"TypeError", "argument of type " ++ pyTypeName d ++ " is not iterable"⟩

/-- Python's `data['url']` (handler line 99): dict item lookup; raises
TypeError on strings and lists (string/list indices must be integers),
KeyError when the key is missing (unreachable after the membership test). -/
def jsonGetItemUrl : Json → Except PyErr Json
  | Json.obj kvs =>
    match objGet kvs "url" with
    | some v => Except.ok v
    | none => Except.error ⟨"KeyError", "url"⟩
  | Json.str _ => Except.error ⟨"TypeError", "string indices must be integers"⟩
  | Json.arr _ => Except.error ⟨"TypeError", "list indices must be integers or slices, not str"⟩
  | d => Except.error ⟨"TypeError", pyTypeName d ++ " object is not subscriptable"⟩

/-! ### The resolver and the transcript route (server.py lines 73-105) -/

/-- The error raised by the resolver when no identifier can be extracted
(server.py line 83: `raise ValueError("Invalid YouTube URL")`). -/
def invalidYouTubeURL : PyErr := ⟨"ValueError", "Invalid YouTube URL"⟩

/-- Python `parsed_url.path.split('/')[-1]` (server.py line 80). -/
def lastSegment (path : String) : String :=
  ((splitOnChar '/' path.data).getLastD []).asString

/-- The extraction part of `get_video_transcript` (server.py lines 75-83),
the spec's Resolver: parse the URL; for a netloc containing `youtube.com`
read the first value of the query parameter `v` (`query_params.get('v',
[None])[0]`, where `parse_qs` never maps a key to an empty list, so
`List.head?` is always `some` for a present key); otherwise take the last
path segment; fail on `None` or the empty string (`if not video_id`). A
parse failure propagates unchanged (the `except` clause at lines 87-89 logs
and re-raises the same exception). -/
def resolve_video_id (url : String) : Except PyErr String :=
  match urlparse url with
  | Except.error e => Except.error e
  | Except.ok parsed =>
    let video_id : Option String :=
      if strContains parsed.netloc "youtube.com" then
        (qsGet (parse_qs parsed.query) "v").bind List.head?
      else
        some (lastSegment parsed.path)
    match video_id with
    | none => Except.error invalidYouTubeURL
    | some v => if v = "" then Except.error invalidYouTubeURL else Except.ok v

/-- The external transcript fetcher
(`YouTubeTranscriptApi.get_transcript`): opaque collaborator mapping a
video id to transcript data or a failure. -/
def Fetcher : Type := String → Except PyErr Json

/-- `get_video_transcript` (server.py lines 73-89): resolve the video id,
then fetch. The second component records the arguments the fetcher was
invoked with. The `try/except` in the source only logs and re-raises, so
errors propagate unchanged. -/
def get_video_transcript (url : String) (fetch : Fetcher) : Except PyErr Json × List String :=
  match resolve_video_id url with
  | Except.error e => (Except.error e, [])
  | Except.ok vid => (fetch vid, [vid])

/-- An HTTP response body: JSON (via `jsonify`) or raw text. -/
inductive Body where
  | json (j : Json) : Body
  | text (s : String) : Body

/-- An HTTP response: status code, body, headers. -/
structure HttpResponse where
  status : Nat
  body : Body
  headers : List (String × String)

/-- The 400 response of the transcript handler (server.py line 97). -/
def resp_url_required : HttpResponse :=
  ⟨400, Body.json (Json.obj [("error", Json.str "URL is required")]), []⟩

/-- The body of `get_transcript`'s `try` block (server.py lines 95-101),
with `data` the result of `request.get_json()` (`none` = Python `None`).
`Except.error` means an exception reached the handler's `except` clause.
The second component records fetcher invocations. -/
def get_transcript_try (data : Option Json) (fetch : Fetcher) :
    Except PyErr HttpResponse × List String :=
  match data with
  | none => (Except.ok resp_url_required, [])
  | some d =>
    if jsonTruthy d then
      match json_contains_url d with
      | Except.error e => (Except.error e, [])
      | Except.ok false => (Except.ok resp_url_required, [])
      | Except.ok true =>
        match jsonGetItemUrl d with
        | Except.error e => (Except.error e, [])
        | Except.ok u =>
          match u with
          | Json.str s =>
            match get_video_transcript s fetch with
            | (Except.ok tr, calls) =>
              (Except.ok ⟨200, Body.json (Json.obj [("transcript", tr)]), []⟩, calls)
            | (Except.error e, calls) => (Except.error e, calls)
          | other =>
            (Except.error ⟨"TypeError",
              "urlparse raises for a non-string url of type " ++ pyTypeName other⟩, [])
    else (Except.ok resp_url_required, [])

/-- The `/api/transcript` POST handler `get_transcript` (server.py lines
91-105): the `except` clause turns any exception into a 500 response with
the exception's message (line 105). -/
def get_transcript_route (data : Option Json) (fetch : Fetcher) :
    HttpResponse × List String :=
  match get_transcript_try data fetch with
  | (Except.ok r, calls) => (r, calls)
  | (Except.error e, calls) =>
    (⟨500, Body.json (Json.obj [("error", Json.str e.msg)]), []⟩, calls)

/-! ### Middleware and application dispatch (server.py lines 27-71, 107-109) -/

/-- Werkzeug-style header assignment `response.headers[k] = v`: replace the
first entry with key `k`, or append a new entry. -/
def setHeader : List (String × String) → String → String → List (String × String)
  | [], k, v => [(k, v)]
  | (k0, v0) :: rest, k, v =>
    if k0 = k then (k, v) :: rest else (k0, v0) :: setHeader rest k v

/-- Header lookup (first entry with the given name). -/
def getHeader : List (String × String) → String → Option String
  | [], _ => none
  | (k0, v0) :: rest, k => if k0 = k then some v0 else getHeader rest k

/-- The `after_request` middleware `add_security_headers` (server.py lines
35-41): sets the four security headers on every response. -/
def add_security_headers (r : HttpResponse) : HttpResponse :=
  { r with
    headers :=
      setHeader
        (setHeader
          (setHeader
            (setHeader r.headers "X-Content-Type-Options" "nosniff")
            "X-Frame-Options" "DENY")
          "X-XSS-Protection" "1; mode=block")
        "Strict-Transport-Security" "max-age=31536000; includeSubDomains" }

/-- The catch-all error handler `handle_error` (server.py lines 44-50):
every exception it receives becomes a 500 response with the exception's
message and `status: "error"`. -/
def handle_error (e : PyErr) : HttpResponse :=
  ⟨500, Body.json (Json.obj [("error", Json.str e.msg), ("status", Json.str "error")]), []⟩

/-- The application's routes. -/
inductive Route where
  | home : Route
  | health : Route
  | transcript : Route
  | favicon : Route

/-- Flask routing for this application (`@app.route` declarations): method
and path to handler. -/
def matchRoute : String → String → Option Route
  | "GET", "/" => some Route.home
  | "GET", "/health" => some Route.health
  | "POST", "/api/transcript" => some Route.transcript
  | "GET", "/favicon.ico" => some Route.favicon
  | _, _ => none

/-- The flask_limiter configuration: per-route limits as
`(label, max requests, window length in seconds)`. A route-specific
`@limiter.limit` overrides the default limits (`200 per day`, `50 per
hour`), which therefore apply only to the undecorated routes `/health`
and `/favicon.ico`. -/
def routeLimits : Route → List (String × Nat × Nat)
  | Route.home => [("10 per minute", 10, 60)]
  | Route.health => [("200 per day", 200, 86400), ("50 per hour", 50, 3600)]
  | Route.transcript => [("100 per hour", 100, 3600)]
  | Route.favicon => [("200 per day", 200, 86400), ("50 per hour", 50, 3600)]

/-- Rate-limiter storage: counters keyed by (client address, limit label,
fixed-window index). -/
def RLState : Type := List ((String × String × Nat) × Nat)

/-- Increment-and-read of one fixed-window counter. -/
def bumpCount (st : RLState) (key : String × String × Nat) : RLState × Nat :=
  match st with
  | [] => ([(key, 1)], 1)
  | (k, n) :: rest =>
    if k = key then ((k, n + 1) :: rest, n + 1)
    else
      match bumpCount rest key with
      | (st2, c) => ((k, n) :: st2, c)

/-- Evaluate a route's limits for a client at time `t` (seconds):
increment each limit's current fixed-window counter and report the label
of the first exceeded limit, if any (flask_limiter's default fixed-window
strategy: a request is rejected when the incremented count exceeds the
cap). -/
def applyLimits (client : String) (t : Nat) :
    RLState → List (String × Nat × Nat) → RLState × Option String
  | st, [] => (st, none)
  | st, (label, cap, win) :: rest =>
    match bumpCount st (client, label, t / win) with
    | (st2, c) =>
      match applyLimits client t st2 rest with
      | (st3, r) => (st3, if cap < c then some label else r)

/-- The `home` view (server.py lines 52-62). -/
def home_response : HttpResponse :=
  ⟨200,
    Body.json (Json.obj
      [("status", Json.str "Server is running"),
       ("endpoints", Json.obj
         [("transcript", Json.str "/api/transcript"),
          ("health", Json.str "/health")]),
       ("version", Json.str "1.0.0")]),
    []⟩

/-- The `health` view (server.py lines 64-71); `t` models `time.time()`
(modelled in whole seconds) and `env` the `ENVIRONMENT` variable. -/
def health_response (env : Option String) (t : Nat) : HttpResponse :=
  ⟨200,
    Body.json (Json.obj
      [("status", Json.str "healthy"),
       ("timestamp", Json.num (Int.ofNat t)),
       ("environment", Json.str (env.getD "development")),
       ("service", Json.str "youtube-transcript-api")]),
    []⟩

/-- Runs the matched view function. The transcript view receives the
result of `request.get_json()` and the fetcher; `favicon` returns an empty
204 (server.py lines 107-109). -/
def runView (rt : Route) (env : Option String) (fetch : Fetcher) (t : Nat)
    (body : Option Json) : HttpResponse × List String :=
  match rt with
  | Route.home => (home_response, [])
  | Route.health => (health_response env t, [])
  | Route.transcript => get_transcript_route body fetch
  | Route.favicon => (⟨204, Body.text "", []⟩, [])

/-- An incoming HTTP request: client address (the rate-limit key), method,
path, and the JSON body as seen by `request.get_json()`. -/
structure AppRequest where
  client : String
  method : String
  path : String
  body : Option Json

/-- One request through the Flask application, before the `after_request`
middleware. Routing failures (404/405) and the limiter's
`RateLimitExceeded` (a 429 `HTTPException`) are raised before the view
runs; per Flask's error-handler dispatch, a handler registered for
`Exception` also receives `HTTPException` instances when no more specific
handler is registered - which is the case in this application - so both
are converted by `handle_error` into 500 responses. (flask_limiter
registers no 429 handler of its own; the message of its exception is
modelled as "429 Too Many Requests: " followed by the limit label.) -/
def dispatch_core (env : Option String) (fetch : Fetcher) (t : Nat)
    (st : RLState) (req : AppRequest) : RLState × HttpResponse × List String :=
  match matchRoute req.method req.path with
  | none =>
    (st, handle_error ⟨"NotFound",
      "404 Not Found: The requested URL was not found on the server"⟩, [])
  | some rt =>
    match applyLimits req.client t st (routeLimits rt) with
    | (st2, some label) =>
      (st2, handle_error ⟨"RateLimitExceeded", "429 Too Many Requests: " ++ label⟩, [])
    | (st2, none) =>
      match runView rt env fetch t req.body with
      | (resp, calls) => (st2, resp, calls)

/-- A full request/response cycle: `dispatch_core` followed by the
`after_request` security-header middleware, which Flask applies to every
response, error responses included. -/
def app_dispatch (env : Option String) (fetch : Fetcher) (t : Nat)
    (st : RLState) (req : AppRequest) : RLState × HttpResponse × List String :=
  let r := dispatch_core env fetch t st req
  (r.1, add_security_headers r.2.1, r.2.2)

/-- Runs a sequence of requests (all at time `t`), threading the limiter
state and collecting the responses in order. -/
def run_requests (env : Option String) (fetch : Fetcher) (t : Nat) :
    RLState → List AppRequest → List HttpResponse
  | _, [] => []
  | st, r :: rs =>
    match app_dispatch env fetch t st r with
    | (st2, resp, _) => resp :: run_requests env fetch t st2 rs

/-- A fetcher that always fails (stands in for the network being absent);
used only to instantiate theorems at concrete inputs. -/
def noFetcher : Fetcher := fun _ => Except.error ⟨"Exception", "no network"⟩

/-- The repeated `GET /` request of the rate-limit scenario. -/
def homeProbe : AppRequest := ⟨"1.2.3.4", "GET", "/", none⟩

/-! ### Helper lemmas -/

theorem getHeader_setHeader_self (hs : List (String × String)) (k v : String) :
    getHeader (setHeader hs k v) k = some v := by
  induction hs with
  | nil => simp [setHeader, getHeader]
  | cons h rest ih =>
    obtain ⟨k0, v0⟩ := h
    by_cases hk : k0 = k <;> simp [setHeader, getHeader, hk, ih]

theorem getHeader_setHeader_ne (hs : List (String × String)) (k v k2 : String)
    (h : k ≠ k2) : getHeader (setHeader hs k v) k2 = getHeader hs k2 := by
  induction hs with
  | nil => simp [setHeader, getHeader, h]
  | cons hd rest ih =>
    obtain ⟨k0, v0⟩ := hd
    by_cases hk : k0 = k <;> simp [setHeader, getHeader, hk, h, ih]

/-- After `add_security_headers`, the four security headers are present
with the exact configured values. -/
theorem add_security_headers_spec (r : HttpResponse) :
    getHeader (add_security_headers r).headers "X-Content-Type-Options" = some "nosniff" ∧
    getHeader (add_security_headers r).headers "X-Frame-Options" = some "DENY" ∧
    getHeader (add_security_headers r).headers "X-XSS-Protection" = some "1; mode=block" ∧
    getHeader (add_security_headers r).headers "Strict-Transport-Security" =
      some "max-age=31536000; includeSubDomains" := by
  unfold add_security_headers
  refine ⟨?_, ?_, ?_, ?_⟩ <;>
    simp [getHeader_setHeader_self,
      getHeader_setHeader_ne _ _ _ _ (by decide : ("Strict-Transport-Security" : String) ≠ "X-Content-Type-Options"),
      getHeader_setHeader_ne _ _ _ _ (by decide : ("Strict-Transport-Security" : String) ≠ "X-Frame-Options"),
      getHeader_setHeader_ne _ _ _ _ (by decide : ("Strict-Transport-Security" : String) ≠ "X-XSS-Protection"),
      getHeader_setHeader_ne _ _ _ _ (by decide : ("X-XSS-Protection" : String) ≠ "X-Content-Type-Options"),
      getHeader_setHeader_ne _ _ _ _ (by decide : ("X-XSS-Protection" : String) ≠ "X-Frame-Options"),
      getHeader_setHeader_ne _ _ _ _ (by decide : ("X-Frame-Options" : String) ≠ "X-Content-Type-Options")]

theorem unquoteChars_ne_nil : ∀ l : List Char, l ≠ [] → unquoteChars l ≠ [] := by
  intro l h
  rcases l with _ | ⟨c, _ | ⟨a, _ | ⟨b, rest⟩⟩⟩
  · exact absurd rfl h
  · by_cases hc : c = '%' <;> simp [unquoteChars, hc]
  · by_cases hc : c = '%' <;> simp [unquoteChars, hc]
  · by_cases hc : c = '%'
    · subst hc
      rcases hxa : hexVal a with _ | x <;> rcases hxb : hexVal b with _ | y <;>
        simp [unquoteChars, hxa, hxb]
    · simp [unquoteChars, hc]

theorem unquote_plus_ne_empty (l : List Char) (h : l ≠ []) : unquote_plus l ≠ "" := by
  unfold unquote_plus
  intro hcontra
  have hne : unquoteChars (plusToSpace l) ≠ [] := by
    apply unquoteChars_ne_nil
    rcases l with _ | ⟨c, rest⟩
    · exact absurd rfl h
    · simp [plusToSpace]
  have : (unquoteChars (plusToSpace l)) = [] := by
    have := congrArg String.data hcontra
    simpa [List.asString] using this
  exact hne this

theorem parse_qsl_values_ne (qs : String) : ∀ p ∈ parse_qsl qs, p.2 ≠ "" := by
  intro p hp
  unfold parse_qsl at hp
  split at hp
  · simp at hp
  · obtain ⟨a, -, hfa⟩ := List.mem_filterMap.mp hp
    split at hfa
    · exact absurd hfa (by simp)
    · split at hfa
      · exact absurd hfa (by simp)
      · rename_i n v heq
        split at hfa
        · exact absurd hfa (by simp)
        · rename_i hv
          obtain rfl := Option.some.inj hfa
          have : v ≠ [] := by
            intro hnil
            subst hnil
            simp at hv
          exact unquote_plus_ne_empty v this

/-- Dictionary invariant: every stored value is a non-empty string. -/
def GoodDict (d : List (String × List String)) : Prop :=
  ∀ e ∈ d, ∀ v ∈ e.2, v ≠ ""

theorem qsAdd_good (d : List (String × List String)) (n v : String)
    (hd : GoodDict d) (hv : v ≠ "") : GoodDict (qsAdd d n v) := by
  induction d with
  | nil =>
    intro e he x hx
    simp [qsAdd] at he
    subst he
    simp at hx
    subst hx
    exact hv
  | cons a rest ih =>
    obtain ⟨k, vs⟩ := a
    intro e he x hx
    by_cases hk : k = n
    · simp [qsAdd, hk] at he
      rcases he with he | he
      · subst he
        simp at hx
        rcases hx with hx | hx
        · exact hd (n, vs) (by simp [hk]) x (by simpa [hk] using hx)
        · subst hx; exact hv
      · exact hd e (by simp [he]) x hx
    · simp [qsAdd, hk] at he
      rcases he with he | he
      · subst he
        exact hd (k, vs) (by simp) x hx
      · exact ih (fun e2 he2 => hd e2 (by simp [he2])) e he x hx

theorem foldl_qsAdd_good (l : List (String × String)) :
    ∀ d : List (String × List String), GoodDict d → (∀ p ∈ l, p.2 ≠ "") →
      GoodDict (l.foldl (fun d p => qsAdd d p.1 p.2) d) := by
  induction l with
  | nil => intro d hd _; simpa using hd
  | cons p rest ih =>
    intro d hd hl
    simp only [List.foldl_cons]
    exact ih _ (qsAdd_good _ _ _ hd (hl p (by simp)))
      (fun q hq => hl q (by simp [hq]))

theorem parse_qs_good (qs : String) : GoodDict (parse_qs qs) := by
  unfold parse_qs
  exact foldl_qsAdd_good _ [] (by intro e he; simp at he) (parse_qsl_values_ne qs)

theorem qsGet_good_values (d : List (String × List String)) (hd : GoodDict d)
    (k : String) (vs : List String) (h : qsGet d k = some vs) :
    ∀ v ∈ vs, v ≠ "" := by
  induction d with
  | nil => simp [qsGet] at h
  | cons a rest ih =>
    obtain ⟨k0, vs0⟩ := a
    simp only [qsGet] at h
    split at h
    · intro v hv
      apply hd (k0, vs0) (by simp) v
      rw [Option.some.inj h]
      exact hv
    · exact ih (fun e he => hd e (by simp [he])) h

/-- Every value list returned by `parse_qs` contains only non-empty
strings (blank values are dropped by `parse_qsl`). -/
theorem parse_qs_values_ne (qs k : String) (vs : List String)
    (h : qsGet (parse_qs qs) k = some vs) : ∀ v ∈ vs, v ≠ "" :=
  qsGet_good_values _ (parse_qs_good qs) k vs h

/-! ### Claim theorems -/

/-- C5: for every URL whose host (netloc) contains the substring
"youtube.com" and whose query string has a non-empty parameter `v` whose
first value is `vid`, the resolver returns exactly `vid`. -/
theorem C5_youtube_query_param (url : String) (p : ParseResult) (vid : String)
    (rest : List String)
    (hp : urlparse url = Except.ok p)
    (hhost : strContains p.netloc "youtube.com" = true)
    (hv : qsGet (parse_qs p.query) "v" = some (vid :: rest))
    (hne : vid ≠ "") :
    resolve_video_id url = Except.ok vid := by
  unfold resolve_video_id
  rw [hp]
  simp [hhost, hv, hne]

/-- Witness for C5 at `https://www.youtube.com/watch?v=dQw4w9WgXcQ&t=42s`. -/
theorem C5_youtube_query_param_witness :
    urlparse "https://www.youtube.com/watch?v=dQw4w9WgXcQ&t=42s" =
      Except.ok ⟨"https", "www.youtube.com", "/watch", "", "v=dQw4w9WgXcQ&t=42s", ""⟩ ∧
    strContains "www.youtube.com" "youtube.com" = true ∧
    qsGet (parse_qs "v=dQw4w9WgXcQ&t=42s") "v" = some ["dQw4w9WgXcQ"] ∧
    resolve_video_id "https://www.youtube.com/watch?v=dQw4w9WgXcQ&t=42s" =
      Except.ok "dQw4w9WgXcQ" :=
  ⟨rfl, rfl, rfl,
    C5_youtube_query_param "https://www.youtube.com/watch?v=dQw4w9WgXcQ&t=42s"
      ⟨"https", "www.youtube.com", "/watch", "", "v=dQw4w9WgXcQ&t=42s", ""⟩
      "dQw4w9WgXcQ" [] rfl rfl rfl (by decide)⟩

/-- C6: for every URL whose host does not contain "youtube.com" and whose
path's final segment after the last `/` is a non-empty string `vid`, the
resolver returns exactly `vid`. -/
theorem C6_last_path_segment (url : String) (p : ParseResult) (vid : String)
    (hp : urlparse url = Except.ok p)
    (hhost : strContains p.netloc "youtube.com" = false)
    (hseg : lastSegment p.path = vid)
    (hne : vid ≠ "") :
    resolve_video_id url = Except.ok vid := by
  unfold resolve_video_id
  rw [hp]
  simp [hhost, hseg, hne]

/-- Witness for C6 at `https://youtu.be/dQw4w9WgXcQ`. -/
theorem C6_last_path_segment_witness :
    urlparse "https://youtu.be/dQw4w9WgXcQ" =
      Except.ok ⟨"https", "youtu.be", "/dQw4w9WgXcQ", "", "", ""⟩ ∧
    strContains "youtu.be" "youtube.com" = false ∧
    lastSegment "/dQw4w9WgXcQ" = "dQw4w9WgXcQ" ∧
    resolve_video_id "https://youtu.be/dQw4w9WgXcQ" = Except.ok "dQw4w9WgXcQ" :=
  ⟨rfl, rfl, rfl,
    C6_last_path_segment "https://youtu.be/dQw4w9WgXcQ"
      ⟨"https", "youtu.be", "/dQw4w9WgXcQ", "", "", ""⟩
      "dQw4w9WgXcQ" rfl rfl rfl (by decide)⟩

/-- C7: the resolver fails with `ValueError("Invalid YouTube URL")` for
every youtube.com URL whose `v` parameter is absent after query parsing
(an empty `v=` value is dropped by `parse_qs`, i.e. treated as absent),
and for every non-youtube.com URL whose final path segment is empty; in
particular both `https://www.youtube.com/watch?v=` and `https://youtu.be/`
make the resolver fail. -/
theorem C7_empty_id_fails :
    (∀ url p, urlparse url = Except.ok p →
      strContains p.netloc "youtube.com" = true →
      qsGet (parse_qs p.query) "v" = none →
      resolve_video_id url = Except.error invalidYouTubeURL) ∧
    (∀ url p, urlparse url = Except.ok p →
      strContains p.netloc "youtube.com" = false →
      lastSegment p.path = "" →
      resolve_video_id url = Except.error invalidYouTubeURL) ∧
    resolve_video_id "https://www.youtube.com/watch?v=" =
      Except.error invalidYouTubeURL ∧
    resolve_video_id "https://youtu.be/" = Except.error invalidYouTubeURL := by
  refine ⟨?_, ?_, rfl, rfl⟩
  · intro url p hp hhost hv
    unfold resolve_video_id
    rw [hp]
    simp [hhost, hv]
  · intro url p hp hhost hseg
    unfold resolve_video_id
    rw [hp]
    simp [hhost, hseg]

/-- Witness for C7's universally quantified parts, at
`https://music.youtube.com/watch?list=abc` (youtube host, no `v`) and
`https://example.com/videos/` (trailing slash). -/
theorem C7_empty_id_fails_witness :
    resolve_video_id "https://music.youtube.com/watch?list=abc" =
      Except.error invalidYouTubeURL ∧
    resolve_video_id "https://example.com/videos/" =
      Except.error invalidYouTubeURL :=
  ⟨C7_empty_id_fails.1 "https://music.youtube.com/watch?list=abc"
      ⟨"https", "music.youtube.com", "/watch", "", "list=abc", ""⟩ rfl rfl rfl,
    C7_empty_id_fails.2.1 "https://example.com/videos/"
      ⟨"https", "example.com", "/videos/", "", "", ""⟩ rfl rfl rfl⟩

/-- C10: for every URL whose host contains "youtube.com" and whose query
string carries the parameter `v` more than once (as parsed by `parse_qs`,
which drops blank values), the resolver returns the first occurrence's
value, ignoring later occurrences. -/
theorem C10_first_occurrence (url : String) (p : ParseResult) (v1 v2 : String)
    (vs : List String)
    (hp : urlparse url = Except.ok p)
    (hhost : strContains p.netloc "youtube.com" = true)
    (hv : qsGet (parse_qs p.query) "v" = some (v1 :: v2 :: vs)) :
    resolve_video_id url = Except.ok v1 := by
  have hne : v1 ≠ "" := parse_qs_values_ne p.query "v" _ hv v1 (by simp)
  unfold resolve_video_id
  rw [hp]
  simp [hhost, hv, hne]

/-- Witness for C10 at `https://www.youtube.com/watch?v=first&v=second`. -/
theorem C10_first_occurrence_witness :
    qsGet (parse_qs "v=first&v=second") "v" = some ["first", "second"] ∧
    resolve_video_id "https://www.youtube.com/watch?v=first&v=second" =
      Except.ok "first" :=
  ⟨rfl,
    C10_first_occurrence "https://www.youtube.com/watch?v=first&v=second"
      ⟨"https", "www.youtube.com", "/watch", "", "v=first&v=second", ""⟩
      "first" "second" [] rfl rfl rfl⟩

/-- C4 (amended): an input string on which the URI parser fails makes the
resolver fail with the parser's own error - the same Python exception
class (`ValueError`) as a resolution failure, but carrying the raw parser
message - and that raw parser error is propagated verbatim to the caller:
the handler returns 500 with the parser's message. -/
theorem C4_parse_failure_propagates (url : String) (e : PyErr) (f : Fetcher)
    (h : urlparse url = Except.error e) :
    resolve_video_id url = Except.error e ∧
    (get_transcript_route (some (Json.obj [("url", Json.str url)])) f).1 =
      ⟨500, Body.json (Json.obj [("error", Json.str e.msg)]), []⟩ := by
  have hres : resolve_video_id url = Except.error e := by
    unfold resolve_video_id
    rw [h]
  refine ⟨hres, ?_⟩
  simp [get_transcript_route, get_transcript_try, jsonTruthy, json_contains_url,
    jsonGetItemUrl, objGet, get_video_transcript, hres]

/-- Witness for C4's amended statement at `http://[mismatched`. -/
theorem C4_parse_failure_propagates_witness :
    urlparse "http://[mismatched" = Except.error ⟨"ValueError", "Invalid IPv6 URL"⟩ ∧
    resolve_video_id "http://[mismatched" =
      Except.error ⟨"ValueError", "Invalid IPv6 URL"⟩ ∧
    (get_transcript_route
        (some (Json.obj [("url", Json.str "http://[mismatched")])) noFetcher).1 =
      ⟨500, Body.json (Json.obj [("error", Json.str "Invalid IPv6 URL")]), []⟩ :=
  ⟨rfl,
    (C4_parse_failure_propagates "http://[mismatched" ⟨"ValueError", "Invalid IPv6 URL"⟩
      noFetcher rfl).1,
    (C4_parse_failure_propagates "http://[mismatched" ⟨"ValueError", "Invalid IPv6 URL"⟩
      noFetcher rfl).2⟩

/-- C4 counterexample: on `http://[abc` (which fails to parse as a URI)
the resolver's error is the raw parser error `Invalid IPv6 URL`, not the
resolution-failure error `Invalid YouTube URL`, and exactly this raw
parser message reaches the HTTP client - refuting "the raw parser error
is never propagated to the caller". -/
theorem C4_counterexample :
    resolve_video_id "http://[abc" =
      Except.error ⟨"ValueError", "Invalid IPv6 URL"⟩ ∧
    "Invalid IPv6 URL" ≠ invalidYouTubeURL.msg ∧
    (get_transcript_route (some (Json.obj [("url", Json.str "http://[abc")]))
        noFetcher).1 =
      ⟨500, Body.json (Json.obj [("error", Json.str "Invalid IPv6 URL")]), []⟩ :=
  ⟨rfl, by decide, rfl⟩

/-- C8 counterexample: on the input `not a url` the resolver does not
fail - it succeeds, extracting the whole string (the final path segment of
a URL with empty scheme and host) - refuting "the Resolver fails". -/
theorem C8_counterexample :
    resolve_video_id "not a url" = Except.ok "not a url" := rfl

/-- C8 (amended): for the input url `not a url` the resolver succeeds with
the id `not a url`; the fetcher is then invoked with it, and whenever that
fetch fails the handler returns 500 with the fetch failure's message in
the `error` field. -/
theorem C8_not_a_url (f : Fetcher) (e : PyErr)
    (h : f "not a url" = Except.error e) :
    resolve_video_id "not a url" = Except.ok "not a url" ∧
    get_transcript_route (some (Json.obj [("url", Json.str "not a url")])) f =
      (⟨500, Body.json (Json.obj [("error", Json.str e.msg)]), []⟩, ["not a url"]) := by
  have hres : resolve_video_id "not a url" = Except.ok "not a url" := rfl
  refine ⟨hres, ?_⟩
  simp [get_transcript_route, get_transcript_try, jsonTruthy, json_contains_url,
    jsonGetItemUrl, objGet, get_video_transcript, hres, h]

/-- Witness for C8's amended statement with the always-failing fetcher. -/
theorem C8_not_a_url_witness :
    noFetcher "not a url" = Except.error ⟨"Exception", "no network"⟩ ∧
    get_transcript_route (some (Json.obj [("url", Json.str "not a url")])) noFetcher =
      (⟨500, Body.json (Json.obj [("error", Json.str "no network")]), []⟩,
        ["not a url"]) :=
  ⟨rfl, (C8_not_a_url noFetcher ⟨"Exception", "no network"⟩ rfl).2⟩

/-- C1 (amended): for every request body whose `get_json` result is
missing (`None`) or falsy, or for which Python's membership test reports
that `url` is not in the body, the handler responds 400 with
`error: "URL is required"` and the transcript fetcher is never invoked.
(A truthy non-container body - a number or `true` - instead makes the
membership test raise TypeError, yielding 500; see the counterexample.) -/
theorem C1_missing_url_400 (data : Option Json) (f : Fetcher)
    (h : data = none ∨ ∃ d, data = some d ∧
      (jsonTruthy d = false ∨ json_contains_url d = Except.ok false)) :
    (get_transcript_route data f).1 = resp_url_required ∧
    (get_transcript_route data f).2 = [] := by
  rcases h with rfl | ⟨d, rfl, hd⟩
  · exact ⟨rfl, rfl⟩
  · rcases hd with hd | hd
    · simp [get_transcript_route, get_transcript_try, hd]
    · by_cases ht : jsonTruthy d
      · simp [get_transcript_route, get_transcript_try, ht, hd]
      · simp [get_transcript_route, get_transcript_try, ht]

/-- Witness for C1's amended statement at the body `{"title": "x"}`. -/
theorem C1_missing_url_400_witness :
    json_contains_url (Json.obj [("title", Json.str "x")]) = Except.ok false ∧
    (get_transcript_route (some (Json.obj [("title", Json.str "x")])) noFetcher).1 =
      resp_url_required ∧
    (get_transcript_route (some (Json.obj [("title", Json.str "x")])) noFetcher).2 = [] :=
  ⟨rfl,
    (C1_missing_url_400 (some (Json.obj [("title", Json.str "x")])) noFetcher
      (Or.inr ⟨Json.obj [("title", Json.str "x")], rfl, Or.inr rfl⟩)).1,
    (C1_missing_url_400 (some (Json.obj [("title", Json.str "x")])) noFetcher
      (Or.inr ⟨Json.obj [("title", Json.str "x")], rfl, Or.inr rfl⟩)).2⟩

/-- C1 counterexample: the JSON body `5` lacks the field `url`, yet the
handler responds 500, not 400 (Python raises `TypeError: argument of type
int is not iterable` on `'url' not in 5`, and the handler's catch-all
converts it to 500). The fetcher is still never invoked. -/
theorem C1_counterexample :
    (get_transcript_route (some (Json.num 5)) noFetcher).1.status = 500 ∧
    (get_transcript_route (some (Json.num 5)) noFetcher).1.status ≠ 400 ∧
    (get_transcript_route (some (Json.num 5)) noFetcher).2 = [] :=
  ⟨rfl, by decide, rfl⟩

/-- C2: for every request body (a JSON object) containing a string `url`
on which the resolver fails, the handler responds 500 - not 400 - with the
resolver's error message in the `error` field. -/
theorem C2_resolver_failure_500 (kvs : List (String × Json)) (u : String)
    (e : PyErr) (f : Fetcher)
    (hu : objGet kvs "url" = some (Json.str u))
    (hres : resolve_video_id u = Except.error e) :
    (get_transcript_route (some (Json.obj kvs)) f).1 =
      ⟨500, Body.json (Json.obj [("error", Json.str e.msg)]), []⟩ ∧
    (get_transcript_route (some (Json.obj kvs)) f).1.status ≠ 400 := by
  have hne : kvs ≠ [] := by
    intro hnil
    subst hnil
    simp [objGet] at hu
  have htr : jsonTruthy (Json.obj kvs) = true := by
    rcases kvs with _ | ⟨a, rest⟩
    · exact absurd rfl hne
    · simp [jsonTruthy]
  have hmain : (get_transcript_route (some (Json.obj kvs)) f).1 =
      ⟨500, Body.json (Json.obj [("error", Json.str e.msg)]), []⟩ := by
    simp [get_transcript_route, get_transcript_try, htr, json_contains_url,
      jsonGetItemUrl, hu, get_video_transcript, hres]
  refine ⟨hmain, ?_⟩
  rw [hmain]
  simp

/-- Witness for C2 at the body `{"url": "https://youtu.be/"}`, on which the
resolver fails with `Invalid YouTube URL`. -/
theorem C2_resolver_failure_500_witness :
    objGet [("url", Json.str "https://youtu.be/")] "url" =
      some (Json.str "https://youtu.be/") ∧
    resolve_video_id "https://youtu.be/" = Except.error invalidYouTubeURL ∧
    (get_transcript_route (some (Json.obj [("url", Json.str "https://youtu.be/")]))
        noFetcher).1 =
      ⟨500, Body.json (Json.obj [("error", Json.str "Invalid YouTube URL")]), []⟩ :=
  ⟨rfl, rfl,
    (C2_resolver_failure_500 [("url", Json.str "https://youtu.be/")]
      "https://youtu.be/" invalidYouTubeURL noFetcher rfl rfl).1⟩

/-- C9: every HTTP response produced by the server - any route, any
limiter state, any fetcher, success or failure, regardless of status
code - carries the four security headers with exactly the configured
values. -/
theorem C9_security_headers (env : Option String) (f : Fetcher) (t : Nat)
    (st : RLState) (req : AppRequest) :
    getHeader (app_dispatch env f t st req).2.1.headers "X-Content-Type-Options" =
      some "nosniff" ∧
    getHeader (app_dispatch env f t st req).2.1.headers "X-Frame-Options" =
      some "DENY" ∧
    getHeader (app_dispatch env f t st req).2.1.headers "X-XSS-Protection" =
      some "1; mode=block" ∧
    getHeader (app_dispatch env f t st req).2.1.headers "Strict-Transport-Security" =
      some "max-age=31536000; includeSubDomains" :=
  add_security_headers_spec ((dispatch_core env f t st req).2.1)

/-- C3 evaluated at its failing input: a client issuing 11 requests to
`GET /` at the same instant gets 200 on the first ten, but the
rate-limited 11th request is answered with status 500 - not 429 - carrying
the limiter's message in the generic error envelope, because the catch-all
`errorhandler(Exception)` also receives the limiter's 429 HTTPException
and converts it. -/
theorem C3_rate_limit_reported_as_500 :
    (run_requests none noFetcher 0 [] (List.replicate 11 homeProbe)).map
      (fun r => r.status) = List.replicate 10 200 ++ [500] ∧
    ((run_requests none noFetcher 0 [] (List.replicate 11 homeProbe)).getLastD
        ⟨0, Body.text "", []⟩).status ≠ 429 ∧
    ((run_requests none noFetcher 0 [] (List.replicate 11 homeProbe)).getLastD
        ⟨0, Body.text "", []⟩).body =
      Body.json (Json.obj
        [("error", Json.str "429 Too Many Requests: 10 per minute"),
         ("status", Json.str "error")]) :=
  ⟨rfl, by decide, rfl⟩
